import Mathlib

/-!
Shallow embedding of the KafkarNotesBackend authentication/authorization core
(`app.py`, `database/models/user.py`, `database/models/note.py`).

Conventions:
* Python strings handled character-wise (the `Authorization` header, which the
  code splits with `str.split(' ')`) are modelled as `List Char`; payload
  strings (titles, messages, secrets) stay `String`.
* `datetime` instants are modelled as natural numbers (seconds); only their
  ordering and the 24-hour offset matter to the code.
* The SQLAlchemy store is a list of records plus an auto-increment counter.
* PyJWT's wire format (base64 segments) is abstracted: a request carries a
  token string, and an injective deserialization `parse : List Char → JwtToken`
  is passed where the code would call `jwt.decode` on the raw string.
-/

namespace KafkarNotes

/-- Characters of a Python string, for header processing. -/
abbrev PyStr := List Char

/-- Python's `s.split(sep)` for a one-character separator: splits at every
occurrence, keeping empty chunks, and returns `[[]]` on the empty string. -/
def pySplit (sep : Char) : PyStr → List PyStr
  | [] => [[]]
  | c :: cs =>
    if c = sep then [] :: pySplit sep cs
    else
      match pySplit sep cs with
      | [] => [[c]]
      | w :: ws => (c :: w) :: ws

/-- `users` table row (`database/models/user.py`): `password` holds the stored
credential produced by the hasher, never written to by anything else. -/
structure User where
  id : Nat
  username : String
  email : String
  password : String
  deriving DecidableEq

/-- `notes` table row (`database/models/note.py`). -/
structure Note where
  id : Nat
  title : String
  content : String
  created_at : Nat
  updated_at : Nat
  user_id : Nat
  deriving DecidableEq

/-- `Note.to_dict()`: the JSON shape returned to clients (no `user_id`). -/
structure NoteDict where
  id : Nat
  title : String
  content : String
  created_at : Nat
  updated_at : Nat
  deriving DecidableEq

def Note.to_dict (n : Note) : NoteDict :=
  { id := n.id, title := n.title, content := n.content,
    created_at := n.created_at, updated_at := n.updated_at }

/-- A JWT as the PyJWT library sees it after deserialization.  A structurally
well-formed token records the header's `alg` field, the payload claims
(`user_id`, `exp`), and which key/algorithm its signature was actually
produced with (`sigKey`, `sigAlg`); an honestly issued token has
`sigKey = secret` and `sigAlg = alg`, while tampering breaks that link.
`malformed` stands for any string that fails segment/base64/JSON decoding. -/
inductive JwtToken where
  | signed (alg : String) (user_id : Nat) (exp : Nat) (sigKey : String) (sigAlg : String)
  | malformed
  deriving DecidableEq

/-- The distinct failure causes inside PyJWT's `jwt.decode`. -/
inductive DecodeError where
  | malformedPayload
  | invalidAlgorithm
  | badSignature
  | expiredSignature
  deriving DecidableEq

/-- Result of token verification: the embedded `user_id`, or a typed failure. -/
inductive VerifyResult where
  | ok (user_id : Nat)
  | invalid (e : DecodeError)
  deriving DecidableEq

/-- Model of `jwt.decode(token, secret, algorithms=[...])` as called at
`app.py:89`: reject malformed input, reject a header algorithm outside the
allowed list, verify the signature against `secret` under the header's
algorithm, then validate the `exp` claim (PyJWT treats `exp ≤ now` as
expired).  Every failure is a returned value, never an exception escaping
the model. -/
def jwtDecode (tok : JwtToken) (secret : String) (algorithms : List String)
    (now : Nat) : VerifyResult :=
  match tok with
  | .malformed => .invalid .malformedPayload
  | .signed alg uid exp sigKey sigAlg =>
    if alg ∈ algorithms then
      if sigKey = secret ∧ sigAlg = alg then
        if exp ≤ now then .invalid .expiredSignature else .ok uid
      else .invalid .badSignature
    else .invalid .invalidAlgorithm

/-- Token issuance from `login` (`app.py:143-146`): `jwt.encode` with claims
`user_id` and `exp = utcnow() + 24 hours`, signed with the server secret
under HS256. -/
def issue (uid : Nat) (now : Nat) (secret : String) : JwtToken :=
  JwtToken.signed "HS256" uid (now + 24 * 60 * 60) secret "HS256"

/-- Outcome of the `token_required` decorator (`app.py:77-96`): either a
short-circuit JSON response, or the wrapped handler is invoked with the
resolved `current_user` (which the code does not check for `None`), or an
uncaught Python exception escapes the decorator. -/
inductive GuardOutcome where
  | response (status : Nat) (message : String)
  | handler (current_user : Option User)
  | exception (kind : String)
  deriving DecidableEq

/-- `token_required` (`app.py:77-96`).  `token = header.split(' ')[1]` runs
before any `try`, so a header with no second space-separated chunk raises an
uncaught `IndexError`; an empty second chunk leaves `token` falsy.  The
`try` block covers `jwt.decode` and the user lookup; `filter_by(id=...).first()`
returns `None` (no exception) when the user is absent, and the wrapped
handler is then invoked with `current_user = None`. -/
def token_required (parse : PyStr → JwtToken) (secret : String)
    (users : List User) (now : Nat) (authHeader : Option PyStr) : GuardOutcome :=
  match authHeader with
  | none => .response 401 "Token is missing!"
  | some hdr =>
    match (pySplit ' ' hdr).get? 1 with
    | none => .exception "IndexError"
    | some tok =>
      if tok = [] then .response 401 "Token is missing!"
      else
        match jwtDecode (parse tok) secret ["HS256"] now with
        | .invalid _ => .response 401 "Token is invalid!"
        | .ok uid => .handler (users.find? (fun u => u.id == uid))

/-- A handler's JSON reply: either a serialized note (or list of notes) or a
`{'message': ...}` body, with its HTTP status. -/
inductive ApiResult where
  | note (status : Nat) (body : NoteDict)
  | notes (status : Nat) (body : List NoteDict)
  | message (status : Nat) (msg : String)
  deriving DecidableEq

/-- The notes table plus its auto-increment id counter. -/
structure NotesDB where
  notes : List Note
  nextId : Nat
  deriving DecidableEq

/-- JSON body of `POST /api/notes`: `data.get('title')` / `data.get('content')`
give `None` when the key is absent. -/
structure CreateBody where
  title : Option String
  content : Option String
  deriving DecidableEq

/-- JSON body of `PUT /api/notes/<id>`: both fields optional, presence tested
with `'title' in data` / `'content' in data`. -/
structure UpdateBody where
  title : Option String
  content : Option String
  deriving DecidableEq

/-- The ownership-scoped lookup shared by the single-note routes
(`app.py:163`, `app.py:201`, `app.py:227`):
`Note.query.filter_by(id=note_id, user_id=current_user.id).first()`. -/
def ownedLookup (uid note_id : Nat) (db : NotesDB) : Option Note :=
  db.notes.find? (fun n => n.id == note_id && n.user_id == uid)

/-- `GET /api/notes/<id>` (`app.py:159-169`). -/
def get_one_note (uid note_id : Nat) (db : NotesDB) : ApiResult :=
  match ownedLookup uid note_id db with
  | none => .message 404 "Note not found"
  | some n => .note 200 n.to_dict

/-- `GET /api/notes` (`app.py:152-157`). -/
def get_all_notes (uid : Nat) (db : NotesDB) : ApiResult :=
  .notes 200 ((db.notes.filter (fun n => n.user_id == uid)).map Note.to_dict)

/-- `POST /api/notes` (`app.py:171-195`): missing body or falsy `title` /
`content` give 400; otherwise a row is inserted with the next id, owner
`uid`, and both timestamp columns filled by their `datetime.utcnow` default
at insert time. -/
def create_note (uid : Nat) (body : Option CreateBody) (db : NotesDB)
    (now : Nat) : ApiResult × NotesDB :=
  match body with
  | none => (.message 400 "Missing required fields", db)
  | some b =>
    if b.title.getD "" = "" ∨ b.content.getD "" = "" then
      (.message 400 "Missing required fields", db)
    else
      let n : Note :=
        { id := db.nextId, title := b.title.getD "", content := b.content.getD "",
          created_at := now, updated_at := now, user_id := uid }
      (.note 201 n.to_dict, { notes := db.notes ++ [n], nextId := db.nextId + 1 })

/-- Replace the first list element satisfying `p` by its image under `f`
(how the ORM writes back the one mutated row at commit). -/
def updateFirst (p : Note → Bool) (f : Note → Note) : List Note → List Note
  | [] => []
  | n :: ns => if p n then f n :: ns else n :: updateFirst p f ns

/-- The effect `update_note` has on the fetched row (`app.py:210-215`):
`title` is assigned when the key is present, `content` when the key is
present, and the commit flushes the net change.  SQLAlchemy compares each
assigned attribute with its committed value and emits no UPDATE statement
when nothing actually changed, so the `onupdate=datetime.utcnow` refresh of
`updated_at` fires only when at least one assigned value differs from the
stored one; a value-equal assignment leaves the row — `updated_at`
included — untouched. -/
def applyUpdate (b : UpdateBody) (now : Nat) (n : Note) : Note :=
  if b.title.getD n.title = n.title ∧ b.content.getD n.content = n.content then n
  else
    { n with
      title := b.title.getD n.title
      content := b.content.getD n.content
      updated_at := now }

/-- `PUT /api/notes/<id>` (`app.py:197-221`): ownership-scoped lookup first
(404 before the body is read); a missing/non-JSON body raises inside the
`try` and is answered with 500 after rollback; otherwise the row is mutated
and committed. -/
def update_note (uid note_id : Nat) (body : Option UpdateBody) (db : NotesDB)
    (now : Nat) : ApiResult × NotesDB :=
  match ownedLookup uid note_id db with
  | none => (.message 404 "Note not found", db)
  | some n =>
    match body with
    | none => (.message 500 "Error updating note", db)
    | some b =>
      (.note 200 (applyUpdate b now n).to_dict,
       { db with
          notes := updateFirst (fun m => m.id == note_id && m.user_id == uid)
            (applyUpdate b now) db.notes })

/-- `DELETE /api/notes/<id>` (`app.py:223-241`). -/
def delete_note (uid note_id : Nat) (db : NotesDB) : ApiResult × NotesDB :=
  match ownedLookup uid note_id db with
  | none => (.message 404 "Note not found", db)
  | some _ =>
    (.message 200 "Note deleted",
     { db with notes := db.notes.eraseP (fun m => m.id == note_id && m.user_id == uid) })

/-- The users table plus its auto-increment id counter. -/
structure UsersDB where
  users : List User
  nextId : Nat
  deriving DecidableEq

/-- JSON body of `POST /api/register`. -/
structure RegisterBody where
  username : Option String
  email : Option String
  password : Option String
  deriving DecidableEq

/-- `POST /api/register` (`app.py:99-125`), parameterized by the external
`generate_password_hash` function: 400 when the body or any field is falsy,
409 when a row with the same username or the same email exists, otherwise a
row is inserted whose `password` column holds the hash of the plaintext. -/
def register (hash : String → String) (body : Option RegisterBody)
    (db : UsersDB) : ApiResult × UsersDB :=
  match body with
  | none => (.message 400 "Missing required fields", db)
  | some b =>
    if b.username.getD "" = "" ∨ b.email.getD "" = "" ∨ b.password.getD "" = "" then
      (.message 400 "Missing required fields", db)
    else if (db.users.find? (fun u => u.username == b.username.getD "")).isSome
        ∨ (db.users.find? (fun u => u.email == b.email.getD "")).isSome then
      (.message 409 "User already exists", db)
    else
      let u : User :=
        { id := db.nextId, username := b.username.getD "",
          email := b.email.getD "", password := hash (b.password.getD "") }
      (.message 201 "User created successfully",
       { users := db.users ++ [u], nextId := db.nextId + 1 })

/-! ### Helper lemmas -/

theorem pySplit_append_cons (sep : Char) (p t : PyStr) (hp : sep ∉ p) :
    pySplit sep (p ++ sep :: t) = p :: pySplit sep t := by
  induction p with
  | nil => simp [pySplit]
  | cons c cs ih =>
    have hc : ¬ c = sep := fun h => hp (h ▸ List.mem_cons_self c cs)
    have hcs : sep ∉ cs := fun h => hp (List.mem_cons_of_mem _ h)
    simp [pySplit, hc, ih hcs]

theorem pySplit_eq_single (sep : Char) (t : PyStr) (ht : sep ∉ t) :
    pySplit sep t = [t] := by
  induction t with
  | nil => rfl
  | cons c cs ih =>
    have hc : ¬ c = sep := fun h => ht (h ▸ List.mem_cons_self c cs)
    have hcs : sep ∉ cs := fun h => ht (List.mem_cons_of_mem _ h)
    simp [pySplit, hc, ih hcs]

theorem updateFirst_map_title (p : Note → Bool) (f : Note → Note)
    (hf : ∀ m, (f m).title = m.title) (l : List Note) :
    (updateFirst p f l).map Note.title = l.map Note.title := by
  induction l with
  | nil => rfl
  | cons x xs ih => by_cases hx : p x <;> simp [updateFirst, hx, hf, ih]

theorem applyUpdate_title_of_none (b : UpdateBody) (hb : b.title = none)
    (now : Nat) (m : Note) : (applyUpdate b now m).title = m.title := by
  unfold applyUpdate
  split <;> simp [hb]

/-! ### Claims -/

/-- C1: the read, update, and delete operations look the note up filtered by
both the note id and the requesting user's id simultaneously; whenever no row
matches — the note is absent, or present but owned by someone else — all
three return the identical 404 response with message "Note not found" and
leave the store untouched. -/
theorem ownership_collapses_to_not_found (uid note_id : Nat) (db : NotesDB)
    (body : Option UpdateBody) (now : Nat)
    (h : ∀ n ∈ db.notes, n.id = note_id → n.user_id ≠ uid) :
    get_one_note uid note_id db = .message 404 "Note not found"
    ∧ update_note uid note_id body db now = (.message 404 "Note not found", db)
    ∧ delete_note uid note_id db = (.message 404 "Note not found", db) := by
  have hnone : ownedLookup uid note_id db = none := by
    rw [ownedLookup, List.find?_eq_none]
    intro n hn
    simp only [Bool.and_eq_true, beq_iff_eq, not_and]
    exact h n hn
  exact ⟨by simp [get_one_note, hnone], by simp [update_note, hnone],
    by simp [delete_note, hnone]⟩

theorem ownership_collapses_to_not_found_witness :
    get_one_note 1 1 ⟨[⟨1, "T", "C", 0, 0, 2⟩], 2⟩ = .message 404 "Note not found"
    ∧ update_note 1 1 none ⟨[⟨1, "T", "C", 0, 0, 2⟩], 2⟩ 3
        = (.message 404 "Note not found", ⟨[⟨1, "T", "C", 0, 0, 2⟩], 2⟩)
    ∧ delete_note 1 1 ⟨[⟨1, "T", "C", 0, 0, 2⟩], 2⟩
        = (.message 404 "Note not found", ⟨[⟨1, "T", "C", 0, 0, 2⟩], 2⟩) :=
  ownership_collapses_to_not_found 1 1 ⟨[⟨1, "T", "C", 0, 0, 2⟩], 2⟩ none 3 (by decide)

/-- C2: an absent `Authorization` header is answered 401 "Token is missing!",
but a header that is present with no second space-separated component does
NOT get a 401: `request.headers['Authorization'].split(' ')[1]` runs before
the `try` block, so an `IndexError` escapes the decorator unhandled. -/
theorem missing_header_vs_malformed_header :
    token_required (fun _ => JwtToken.malformed) "dev_secret_key" [] 0 none
      = .response 401 "Token is missing!"
    ∧ token_required (fun _ => JwtToken.malformed) "dev_secret_key" [] 0
        (some "sometoken".toList) = .exception "IndexError" :=
  ⟨rfl, by decide⟩

/-- C3: a token that verifies (here for `user_id = 99`) whose user is absent
from the store does not produce a 401: `filter_by(id=...).first()` returns
`None` without raising, and the guard invokes the wrapped handler with
`current_user = None`. -/
theorem deleted_user_reaches_handler :
    jwtDecode (JwtToken.signed "HS256" 99 100 "dev_secret_key" "HS256")
        "dev_secret_key" ["HS256"] 0 = .ok 99
    ∧ token_required (fun _ => JwtToken.signed "HS256" 99 100 "dev_secret_key" "HS256")
        "dev_secret_key" [⟨1, "alice", "alice@x.com", "hash"⟩] 0
        (some "Bearer tok".toList) = .handler none :=
  ⟨rfl, by decide⟩

/-- C4: a token issued for `uid` verifies to `uid` at every instant strictly
before 24 hours after issuance, and is rejected as expired at every instant
at or after the 24-hour mark. -/
theorem issue_verify_window (uid now t : Nat) (secret : String) :
    (t < now + 24 * 60 * 60 →
      jwtDecode (issue uid now secret) secret ["HS256"] t = .ok uid)
    ∧ (now + 24 * 60 * 60 ≤ t →
      jwtDecode (issue uid now secret) secret ["HS256"] t
        = .invalid .expiredSignature) := by
  refine ⟨fun h => ?_, fun h => ?_⟩
  · simp [issue, jwtDecode, Nat.not_le.mpr h]
  · simp [issue, jwtDecode, h]

theorem issue_verify_window_witness :
    jwtDecode (issue 7 1000 "dev_secret_key") "dev_secret_key" ["HS256"] 87399
      = .ok 7
    ∧ jwtDecode (issue 7 1000 "dev_secret_key") "dev_secret_key" ["HS256"] 87400
      = .invalid .expiredSignature :=
  ⟨(issue_verify_window 7 1000 87399 "dev_secret_key").1 (by decide),
   (issue_verify_window 7 1000 87400 "dev_secret_key").2 (by decide)⟩

/-- C5: whenever the extracted token fails verification — for any failure
cause `e` whatsoever — the guard answers with the single uniform response
401 "Token is invalid!", so callers cannot tell the causes apart, and no
exception escapes on malformed input. -/
theorem invalid_token_uniform_response (parse : PyStr → JwtToken)
    (secret : String) (users : List User) (now : Nat) (hdr tok : PyStr)
    (e : DecodeError)
    (hext : (pySplit ' ' hdr).get? 1 = some tok) (hne : tok ≠ [])
    (hdec : jwtDecode (parse tok) secret ["HS256"] now = .invalid e) :
    token_required parse secret users now (some hdr)
      = .response 401 "Token is invalid!" := by
  unfold token_required
  dsimp only
  rw [hext]
  dsimp only
  rw [if_neg hne, hdec]

theorem invalid_token_uniform_response_witness :
    token_required (fun _ => JwtToken.malformed) "dev_secret_key" [] 0
      (some "Bearer x".toList) = .response 401 "Token is invalid!" :=
  invalid_token_uniform_response (fun _ => JwtToken.malformed) "dev_secret_key"
    [] 0 "Bearer x".toList "x".toList .malformedPayload (by decide) (by decide) rfl

/-- C6: a token whose header algorithm differs from the one expected scheme
HS256 — including an insecure "none" algorithm — is rejected as invalid;
`jwt.decode` is called with the singleton allowed list `["HS256"]`. -/
theorem algorithm_confusion_rejected (secret : String) (now : Nat)
    (alg : String) (uid xp : Nat) (sigKey sigAlg : String)
    (h : alg ≠ "HS256") :
    jwtDecode (JwtToken.signed alg uid xp sigKey sigAlg) secret ["HS256"] now
      = .invalid .invalidAlgorithm := by
  simp [jwtDecode, h]

theorem algorithm_confusion_rejected_witness :
    jwtDecode (JwtToken.signed "none" 7 999 "dev_secret_key" "none")
      "dev_secret_key" ["HS256"] 0 = .invalid .invalidAlgorithm :=
  algorithm_confusion_rejected "dev_secret_key" 0 "none" 7 999
    "dev_secret_key" "none" (by decide)

/-- C7: registration answers 400 and stores nothing when the body or any of
username/email/password is missing or empty; answers 409 and stores nothing
when a user with the same username or email exists; otherwise inserts a user
whose stored credential is the hash of the password (never the plaintext,
given that the hasher never returns its input) and answers 201. -/
theorem register_spec (hash : String → String) (db : UsersDB)
    (b : RegisterBody) :
    register hash none db = (.message 400 "Missing required fields", db)
    ∧ (b.username.getD "" = "" ∨ b.email.getD "" = "" ∨ b.password.getD "" = "" →
        register hash (some b) db = (.message 400 "Missing required fields", db))
    ∧ (b.username.getD "" ≠ "" → b.email.getD "" ≠ "" → b.password.getD "" ≠ "" →
        (∃ u ∈ db.users,
          u.username = b.username.getD "" ∨ u.email = b.email.getD "") →
        register hash (some b) db = (.message 409 "User already exists", db))
    ∧ (b.username.getD "" ≠ "" → b.email.getD "" ≠ "" → b.password.getD "" ≠ "" →
        (∀ u ∈ db.users,
          u.username ≠ b.username.getD "" ∧ u.email ≠ b.email.getD "") →
        register hash (some b) db
          = (.message 201 "User created successfully",
             { users := db.users ++
                 [{ id := db.nextId, username := b.username.getD "",
                    email := b.email.getD "",
                    password := hash (b.password.getD "") }],
               nextId := db.nextId + 1 })
        ∧ ((∀ s, hash s ≠ s) →
            hash (b.password.getD "") ≠ b.password.getD "")) := by
  refine ⟨rfl, fun h => ?_, fun hu he hp hex => ?_, fun hu he hp hnone => ?_⟩
  · show (if _ then _ else _) = _
    rw [if_pos h]
  · show (if _ then _ else _) = _
    rw [if_neg (by
      rintro (h | h | h)
      exacts [hu h, he h, hp h])]
    rw [if_pos (by
      obtain ⟨u, hmem, h | h⟩ := hex
      · exact Or.inl ((List.find?_isSome).2 ⟨u, hmem, by simp [h]⟩)
      · exact Or.inr ((List.find?_isSome).2 ⟨u, hmem, by simp [h]⟩))]
  · refine ⟨?_, fun hno => hno _⟩
    show (if _ then _ else _) = _
    rw [if_neg (by
      rintro (h | h | h)
      exacts [hu h, he h, hp h])]
    rw [if_neg (by
      rintro (h | h)
      · obtain ⟨u, hmem, hpu⟩ := (List.find?_isSome).1 h
        exact (hnone u hmem).1 (by simpa using hpu)
      · obtain ⟨u, hmem, hpu⟩ := (List.find?_isSome).1 h
        exact (hnone u hmem).2 (by simpa using hpu))]

theorem register_spec_witness :
    register (fun s => "pbkdf2:sha256$" ++ s)
      (some ⟨some "alice", some "alice@x.com", some "pw1"⟩) ⟨[], 1⟩
      = (.message 201 "User created successfully",
         ⟨[⟨1, "alice", "alice@x.com", "pbkdf2:sha256$" ++ "pw1"⟩], 2⟩)
    ∧ "pbkdf2:sha256$" ++ "pw1" ≠ "pw1" := by
  have h := (register_spec (fun s => "pbkdf2:sha256$" ++ s) ⟨[], 1⟩
      ⟨some "alice", some "alice@x.com", some "pw1"⟩).2.2.2
    (by decide) (by decide) (by decide) (by simp)
  exact ⟨h.1, h.2 (fun s hs => by
    have := congrArg String.length hs
    rw [String.length_append] at this
    have hl : "pbkdf2:sha256$".length = 14 := by decide
    omega)⟩

/-- C8: creating a note and reading it back by its id returns the identical
title and content, with the server-assigned id `db.nextId` and both
timestamps set to the creation instant, so `updated_at = created_at`. -/
theorem create_then_read_roundtrip (uid : Nat) (t c : String) (db : NotesDB)
    (now : Nat) (ht : t ≠ "") (hc : c ≠ "")
    (hfresh : ∀ n ∈ db.notes, n.id < db.nextId) :
    (create_note uid (some ⟨some t, some c⟩) db now).1
      = .note 201 ⟨db.nextId, t, c, now, now⟩
    ∧ get_one_note uid db.nextId (create_note uid (some ⟨some t, some c⟩) db now).2
      = .note 200 ⟨db.nextId, t, c, now, now⟩ := by
  have hnone : db.notes.find? (fun m => m.id == db.nextId && m.user_id == uid)
      = none := by
    rw [List.find?_eq_none]
    intro m hm
    simp [Nat.ne_of_lt (hfresh m hm)]
  constructor
  · simp [create_note, ht, hc, Note.to_dict]
  · simp [create_note, ht, hc, get_one_note, ownedLookup, List.find?_append,
      hnone, Note.to_dict]

theorem create_then_read_roundtrip_witness :
    (create_note 1 (some ⟨some "T", some "C"⟩) ⟨[], 1⟩ 5).1
      = .note 201 ⟨1, "T", "C", 5, 5⟩
    ∧ get_one_note 1 1 (create_note 1 (some ⟨some "T", some "C"⟩) ⟨[], 1⟩ 5).2
      = .note 200 ⟨1, "T", "C", 5, 5⟩ :=
  create_then_read_roundtrip 1 "T" "C" ⟨[], 1⟩ 5 (by decide) (by decide)
    (by simp)

/-- C9 counterexample: a content-only update that sets `content` to its
current value produces no net change, so the flush emits no UPDATE, the
`onupdate` refresh never fires, and the 200 response carries the old
`updated_at` — here equal to `created_at` (5, not the update instant 9) —
with the stored table wholly unchanged; `updated_at` is therefore not
advanced strictly beyond `created_at` on this successful request. -/
theorem update_content_only_frame_cex :
    (update_note 1 1 (some ⟨none, some "C"⟩) ⟨[⟨1, "T", "C", 5, 5, 1⟩], 2⟩ 9).1
      = .note 200 ⟨1, "T", "C", 5, 5⟩
    ∧ (update_note 1 1 (some ⟨none, some "C"⟩) ⟨[⟨1, "T", "C", 5, 5, 1⟩], 2⟩ 9).2
      = ⟨[⟨1, "T", "C", 5, 5, 1⟩], 2⟩
    ∧ ¬ ∃ d : NoteDict,
        (update_note 1 1 (some ⟨none, some "C"⟩) ⟨[⟨1, "T", "C", 5, 5, 1⟩], 2⟩ 9).1
          = .note 200 d ∧ d.created_at < d.updated_at := by
  refine ⟨rfl, rfl, ?_⟩
  rintro ⟨d, hd, hlt⟩
  have hr : (update_note 1 1 (some ⟨none, some "C"⟩)
      ⟨[⟨1, "T", "C", 5, 5, 1⟩], 2⟩ 9).1
      = ApiResult.note 200 ⟨1, "T", "C", 5, 5⟩ := rfl
  rw [hr] at hd
  injection hd with h1 h2
  rw [← h2] at hlt
  exact absurd hlt (by decide)

/-- C9 (amended): updating an owned note with a body containing only a
`content` field whose value differs from the stored content returns its row
with the title unchanged, `created_at` untouched, and `updated_at` refreshed
to the update instant — strictly beyond `created_at` when the update happens
after creation — and no note title anywhere in the table changes. -/
theorem update_content_only_frame (uid note_id : Nat) (c : String)
    (db : NotesDB) (now : Nat) (n : Note)
    (hfind : ownedLookup uid note_id db = some n)
    (hc : c ≠ n.content)
    (hclock : n.created_at < now) :
    (∃ d : NoteDict,
      (update_note uid note_id (some ⟨none, some c⟩) db now).1 = .note 200 d
      ∧ d.title = n.title ∧ d.content = c ∧ d.created_at = n.created_at
      ∧ d.updated_at = now ∧ d.created_at < d.updated_at)
    ∧ (update_note uid note_id (some ⟨none, some c⟩) db now).2.notes.map
        Note.title = db.notes.map Note.title := by
  have happ : applyUpdate ⟨none, some c⟩ now n
      = { n with content := c, updated_at := now } := by
    unfold applyUpdate
    rw [if_neg (by rintro ⟨-, h2⟩; exact hc (by simpa using h2))]
    rfl
  constructor
  · refine ⟨⟨n.id, n.title, c, n.created_at, now⟩, ?_, rfl, rfl, rfl, rfl, hclock⟩
    simp [update_note, hfind, happ, Note.to_dict]
  · simp only [update_note, hfind]
    exact updateFirst_map_title (fun m => m.id == note_id && m.user_id == uid)
      (applyUpdate ⟨none, some c⟩ now)
      (fun m => applyUpdate_title_of_none ⟨none, some c⟩ rfl now m) db.notes

theorem update_content_only_frame_witness :
    (∃ d : NoteDict,
      (update_note 1 1 (some ⟨none, some "C2"⟩) ⟨[⟨1, "T", "C", 5, 5, 1⟩], 2⟩ 9).1
        = .note 200 d
      ∧ d.title = "T" ∧ d.content = "C2" ∧ d.created_at = 5
      ∧ d.updated_at = 9 ∧ d.created_at < d.updated_at)
    ∧ (update_note 1 1 (some ⟨none, some "C2"⟩)
        ⟨[⟨1, "T", "C", 5, 5, 1⟩], 2⟩ 9).2.notes.map Note.title
      = [⟨1, "T", "C", 5, 5, 1⟩].map Note.title :=
  update_content_only_frame 1 1 "C2" ⟨[⟨1, "T", "C", 5, 5, 1⟩], 2⟩ 9
    ⟨1, "T", "C", 5, 5, 1⟩ (by decide) (by decide) (by decide)

/-- C10: the guard never checks that the header's prefix word is `Bearer`:
for any space-free prefix and token, the guard's outcome on
`"<prefix> <token>"` is identical to its outcome on `"Bearer <token>"`. -/
theorem header_prefix_ignored (parse : PyStr → JwtToken) (secret : String)
    (users : List User) (now : Nat) (p t : PyStr)
    (hp : ' ' ∉ p) (ht : ' ' ∉ t) :
    token_required parse secret users now (some (p ++ ' ' :: t))
      = token_required parse secret users now (some ("Bearer".toList ++ ' ' :: t)) := by
  have e1 := pySplit_append_cons ' ' p t hp
  have e2 := pySplit_append_cons ' ' "Bearer".toList t (by decide)
  rw [pySplit_eq_single ' ' t ht] at e1 e2
  unfold token_required
  dsimp only
  rw [e1, e2]
  rfl

theorem header_prefix_ignored_witness :
    token_required (fun _ => JwtToken.signed "HS256" 1 10 "dev_secret_key" "HS256")
        "dev_secret_key" [⟨1, "alice", "alice@x.com", "hash"⟩] 0
        (some ("Basic".toList ++ ' ' :: "x".toList))
      = token_required (fun _ => JwtToken.signed "HS256" 1 10 "dev_secret_key" "HS256")
        "dev_secret_key" [⟨1, "alice", "alice@x.com", "hash"⟩] 0
        (some ("Bearer".toList ++ ' ' :: "x".toList))
    ∧ token_required (fun _ => JwtToken.signed "HS256" 1 10 "dev_secret_key" "HS256")
        "dev_secret_key" [⟨1, "alice", "alice@x.com", "hash"⟩] 0
        (some ("Basic".toList ++ ' ' :: "x".toList))
      = .handler (some ⟨1, "alice", "alice@x.com", "hash"⟩) :=
  ⟨header_prefix_ignored (fun _ => JwtToken.signed "HS256" 1 10 "dev_secret_key" "HS256")
      "dev_secret_key" [⟨1, "alice", "alice@x.com", "hash"⟩] 0
      "Basic".toList "x".toList (by decide) (by decide),
   by decide⟩

end KafkarNotes
